import Mathlib

/-!
Shallow embedding of the OpenID Connect client core from `src/client.rs`
(key selection, token decoding, claims validation), together with theorems
checking the design document against it.

Modelling conventions:
- `i64` timestamps and second counts become `Int`; `chrono::Duration`
  values are modelled by their length in whole seconds (the granularity at
  which `validate_token` computes ages, via `Duration::seconds`).
- URLs and string-like claim values become `String`.
- The cryptographic signature check performed by `biscuit`'s
  `Compact::decode` is delegated to an oracle parameter
  `verify : Secret → SignatureAlgorithm → EncodedToken → Bool`; the crate
  treats the crypto library as a trusted external collaborator, so theorems
  quantify over every oracle.
- Rust panics (`unimplemented!`, the explicit clock-sanity `panic!`) are a
  distinct `panicked` outcome, separate from `Ok`/`Err` returns.
- `Utc::now()` is an ambient clock read inside `validate_token`; in the
  embedding it becomes the explicit `now : Int` argument, so that
  dependence of the result on the ambient clock is expressible.
-/

namespace OpenIdClient

/-- `biscuit::jwa::SignatureAlgorithm` (closed enum of JWS algorithms). -/
inductive SignatureAlgorithm where
  | None
  | HS256 | HS384 | HS512
  | RS256 | RS384 | RS512
  | ES256 | ES384 | ES512
  | PS256 | PS384 | PS512
  deriving DecidableEq

/-- `SignatureAlgorithm::default()` in biscuit is `HS256`. -/
def SignatureAlgorithm.default : SignatureAlgorithm := .HS256

/-- Rust `Debug` formatting of a `SignatureAlgorithm` value. -/
def SignatureAlgorithm.debugFmt : SignatureAlgorithm → String
  | .None => "None"
  | .HS256 => "HS256" | .HS384 => "HS384" | .HS512 => "HS512"
  | .RS256 => "RS256" | .RS384 => "RS384" | .RS512 => "RS512"
  | .ES256 => "ES256" | .ES384 => "ES384" | .ES512 => "ES512"
  | .PS256 => "PS256" | .PS384 => "PS384" | .PS512 => "PS512"

/-- `biscuit::jwa::Algorithm`: a key's self-declared algorithm, which is a
signature, key-management, or content-encryption algorithm.  The two
non-signature families play no role beyond being non-signature, so their
members are represented by their `Debug` name. -/
inductive Algorithm where
  | Signature (sig : SignatureAlgorithm)
  | KeyManagement (name : String)
  | ContentEncryption (name : String)
  deriving DecidableEq

/-- Rust `Debug` formatting of an `Algorithm` value. -/
def Algorithm.debugFmt : Algorithm → String
  | .Signature s => "Signature(" ++ s.debugFmt ++ ")"
  | .KeyManagement n => "KeyManagement(" ++ n ++ ")"
  | .ContentEncryption n => "ContentEncryption(" ++ n ++ ")"

/-- Rust `Debug` formatting of a `&str` (as produced by `format!` inside the
`wrong_key!` macro): the string is wrapped in quote characters. -/
def debugFmtStr (s : String) : String := "\x22" ++ s ++ "\x22"

/-- `biscuit::jwk::AlgorithmParameters`: the key material variants.
Symmetric keys carry secret bytes, RSA keys a modulus and exponent,
elliptic-curve keys are carried but unusable for verification. -/
inductive AlgorithmParameters where
  | OctetKey (value : List Nat)
  | RSA (n e : Nat)
  | EllipticCurve
  deriving DecidableEq

/-- One JWK entry: common part (optional key id, optional declared
algorithm) plus variant-specific key material. -/
structure JWK where
  keyId : Option String
  algorithm : Option Algorithm
  params : AlgorithmParameters
  deriving DecidableEq

/-- `biscuit::jwk::JWKSet`: the provider's published key list. -/
structure JWKSet where
  keys : List JWK
  deriving DecidableEq

/-- `JWKSet::find(kid)`: first key whose key id equals `kid`. -/
def JWKSet.find (s : JWKSet) (kid : String) : Option JWK :=
  s.keys.find? (fun k => k.keyId = some kid)

/-- `biscuit::SingleOrMultiple`: a claim value that is either one value or
a list of values (used for the `aud` claim). -/
inductive SingleOrMultiple (α : Type) where
  | Single (value : α)
  | Multiple (values : List α)
  deriving DecidableEq

/-- `SingleOrMultiple::contains`: membership test against either variant. -/
def SingleOrMultiple.contains [DecidableEq α] : SingleOrMultiple α → α → Bool
  | .Single a, v => a = v
  | .Multiple l, v => l.contains v

/-- The registered JOSE header fields `decode_token` reads:
`header.registered.algorithm` and `header.registered.key_id`. -/
structure Header where
  algorithm : SignatureAlgorithm
  keyId : Option String
  deriving DecidableEq

/-- The claims accessed by `validate_token` through the `Claims` trait:
`iss`, `sub`, `aud`, `azp`, `exp`, `nonce`, `auth_time`. -/
structure Claims where
  iss : String
  sub : String
  aud : SingleOrMultiple String
  azp : Option String
  exp : Int
  nonce : Option String
  auth_time : Option Int
  deriving DecidableEq

/-- An encoded (untrusted) compact token: readable header, unverified
payload, raw signature bytes. -/
structure EncodedToken where
  header : Header
  payload : Claims
  signature : List Nat
  deriving DecidableEq

/-- `biscuit::jws::Compact`: a token is either still encoded or has been
decoded (signature verified, payload trusted). -/
inductive IdToken where
  | Encoded (t : EncodedToken)
  | Decoded (header : Header) (payload : Claims)
  deriving DecidableEq

/-- `biscuit::jws::Secret`: the key material handed to the verifier. -/
inductive Secret where
  | Bytes (value : List Nat)
  | RSAModulusExponent (n e : Nat)
  deriving DecidableEq

/-- Errors produced by `decode_token` (the `Decode` and `Jose` error
variants it constructs).  `JoseError` stands for any error propagated from
`biscuit`'s cryptographic `decode` call itself. -/
inductive DecodeError where
  | MissingKid
  | MissingKey (kid : String)
  | EmptySet
  | WrongKeyType (expected actual : String)
  | JoseError
  deriving DecidableEq

/-- Outcome of `decode_token`: an `Ok(())` return together with the token's
new state, an `Err` return with the (unchanged) token state, or a panic. -/
inductive DecodeOutcome where
  | ok (token : IdToken)
  | err (e : DecodeError) (token : IdToken)
  | panicked (msg : String)
  deriving DecidableEq

/-- The signature-verification oracle standing for
`Compact::decode(secret, alg)`'s cryptographic check. -/
def VerifyOracle : Type := Secret → SignatureAlgorithm → EncodedToken → Bool

/-- Key selection inside `decode_token` (client.rs lines 177-185): with more
than one key the header must name a key id, which is looked up; otherwise
the first key is used if one exists. -/
def selectKey (jwks : JWKSet) (header : Header) : Except DecodeError JWK :=
  if jwks.keys.length > 1 then
    match header.keyId with
    | none => .error .MissingKid
    | some kid =>
      match jwks.find kid with
      | none => .error (.MissingKey kid)
      | some k => .ok k
  else
    match jwks.keys.head? with
    | none => .error .EmptySet
    | some k => .ok k

/-- The algorithm cross-check inside `decode_token` (client.rs lines
187-195): when the selected key self-declares an algorithm, it must be a
signature algorithm equal to the header's; otherwise a `WrongKeyType`
error is built via the `wrong_key!` macro (which `Debug`-formats both
sides). -/
def algCrossCheck (key : JWK) (header : Header) : Option DecodeError :=
  match key.algorithm with
  | some a =>
    match a with
    | .Signature sig =>
      if header.algorithm ≠ sig then
        some (.WrongKeyType sig.debugFmt header.algorithm.debugFmt)
      else
        none
    | _ => some (.WrongKeyType SignatureAlgorithm.default.debugFmt a.debugFmt)
  | none => none

/-- The verification dispatch of `decode_token` (client.rs lines 197-223):
octet keys accept only the HMAC family, RSA keys only the RSA family
(failing `WrongKeyType` otherwise), and elliptic-curve keys hit
`unimplemented!`.  A family match runs the cryptographic check and on
success transitions the token to `Decoded`. -/
def dispatchKey (verify : VerifyOracle) (t : EncodedToken) (key : JWK) : DecodeOutcome :=
  let alg := t.header.algorithm
  match key.params with
  | .OctetKey value =>
    match alg with
    | .HS256 | .HS384 | .HS512 =>
      if verify (.Bytes value) alg t then
        .ok (.Decoded t.header t.payload)
      else
        .err .JoseError (.Encoded t)
    | _ => .err (.WrongKeyType (debugFmtStr "HS256 | HS384 | HS512") alg.debugFmt) (.Encoded t)
  | .RSA n e =>
    match alg with
    | .RS256 | .RS384 | .RS512 =>
      if verify (.RSAModulusExponent n e) alg t then
        .ok (.Decoded t.header t.payload)
      else
        .err .JoseError (.Encoded t)
    | _ => .err (.WrongKeyType (debugFmtStr "RS256 | RS384 | RS512") alg.debugFmt) (.Encoded t)
  | .EllipticCurve => .panicked "No support for EC keys yet"

/-- `Client::decode_token` (client.rs lines 164-224): early return on an
already-decoded token; skip verification entirely when the client holds no
key set; otherwise select a key, cross-check its declared algorithm, and
dispatch verification. -/
def decode_token (verify : VerifyOracle) (jwks : Option JWKSet) (token : IdToken) :
    DecodeOutcome :=
  match token with
  | .Decoded h p => .ok (.Decoded h p)
  | .Encoded t =>
    match jwks with
    | none => .ok (.Encoded t)
    | some jwks =>
      match selectKey jwks t.header with
      | .error e => .err e (.Encoded t)
      | .ok key =>
        match algCrossCheck key t.header with
        | some e => .err e (.Encoded t)
        | none => dispatchKey verify t key

/-- The `Mismatch` validation error family. -/
inductive Mismatch where
  | Issuer (expected actual : String)
  | Nonce (expected actual : String)
  | AuthorizedParty (expected actual : String)
  deriving DecidableEq

/-- The `Missing` validation error family. -/
inductive Missing where
  | Nonce
  | Audience
  | AuthorizedParty
  | AuthTime
  deriving DecidableEq

/-- The `Expiry` validation error family.  `Expires` carries the token's
expiry timestamp (the code wraps it as a `NaiveDateTime` built from exactly
that timestamp); `MaxAge` carries the computed age in seconds. -/
inductive Expiry where
  | Expires (timestamp : Int)
  | MaxAge (age : Int)
  deriving DecidableEq

/-- The `Validation` error type returned by `validate_token`. -/
inductive Validation where
  | Mismatch (m : Mismatch)
  | Missing (m : Missing)
  | Expired (e : Expiry)
  deriving DecidableEq

/-- Outcome of `validate_token`: an `Ok(())` return, an `Err` return, or
the clock-sanity panic. -/
inductive ValidateOutcome where
  | ok
  | err (e : Validation)
  | panicked (msg : String)
  deriving DecidableEq

/-- The caller-supplied expectations `validate_token` checks against:
the client's id and configured issuer (fields of `Client`), plus the
`nonce` and `max_age` arguments.  This is the spec's `ValidationContext`;
`max_age` is a duration in seconds. -/
structure ValidationContext where
  client_id : String
  issuer : String
  nonce : Option String
  max_age : Option Int
  deriving DecidableEq

/-- Issuer check (client.rs lines 247-251): the token issuer must equal the
configured issuer, else `Mismatch::Issuer` carrying expected (config) and
actual (claims) values. -/
def issuerCheck (c : Claims) (ctx : ValidationContext) : Option Validation :=
  if c.iss ≠ ctx.issuer then
    some (.Mismatch (.Issuer ctx.issuer c.iss))
  else
    none

/-- Nonce check (client.rs lines 253-271): four-way match on the expected
and claimed nonce. -/
def nonceCheck (c : Claims) (ctx : ValidationContext) : Option Validation :=
  match ctx.nonce with
  | some expected =>
    match c.nonce with
    | some actual =>
      if expected ≠ actual then
        some (.Mismatch (.Nonce expected actual))
      else
        none
    | none => some (.Missing .Nonce)
  | none =>
    if c.nonce.isSome then
      some (.Missing .Nonce)
    else
      none

/-- Audience membership check (client.rs lines 273-275). -/
def audienceCheck (c : Claims) (ctx : ValidationContext) : Option Validation :=
  if ¬ c.aud.contains ctx.client_id then
    some (.Missing .Audience)
  else
    none

/-- Authorized-party presence check (client.rs lines 277-281): a
multi-valued audience requires an `azp` claim. -/
def azpPresenceCheck (c : Claims) : Option Validation :=
  match c.aud with
  | .Multiple _ =>
    match c.azp with
    | none => some (.Missing .AuthorizedParty)
    | some _ => none
  | .Single _ => none

/-- Authorized-party equality check (client.rs lines 283-291): a present
`azp` must equal the client id. -/
def azpMatchCheck (c : Claims) (ctx : ValidationContext) : Option Validation :=
  match c.azp with
  | some actual =>
    if actual ≠ ctx.client_id then
      some (.Mismatch (.AuthorizedParty ctx.client_id actual))
    else
      none
  | none => none

/-- Expiry check (client.rs lines 298-303): fails when `exp ≤ now`. -/
def expiryCheck (c : Claims) (now : Int) : Option Validation :=
  if c.exp ≤ now then
    some (.Expired (.Expires c.exp))
  else
    none

/-- Max-age check (client.rs lines 305-315): when a `max_age` was supplied
the claims must carry `auth_time`; the age `now - auth_time` must be
strictly below `max_age`. -/
def maxAgeCheck (c : Claims) (ctx : ValidationContext) (now : Int) : Option Validation :=
  match ctx.max_age with
  | some maxAge =>
    match c.auth_time with
    | some time =>
      if now - time ≥ maxAge then
        some (.Expired (.MaxAge (now - time)))
      else
        none
    | none => some (.Missing .AuthTime)
  | none => none

/-- `Client::validate_token` (client.rs lines 239-318) on an already
decoded payload.  Each early-returning Rust block is one of the check
functions above, run in source order; between the authorized-party checks
and the expiry check the code reads `Utc::now()` (here the explicit `now`
argument) and panics if the clock is before 1504758600. -/
def validate_token (c : Claims) (ctx : ValidationContext) (now : Int) : ValidateOutcome :=
  match issuerCheck c ctx with
  | some e => .err e
  | none =>
    match nonceCheck c ctx with
    | some e => .err e
    | none =>
      match audienceCheck c ctx with
      | some e => .err e
      | none =>
        match azpPresenceCheck c with
        | some e => .err e
        | none =>
          match azpMatchCheck c ctx with
          | some e => .err e
          | none =>
            if now < 1504758600 then
              .panicked "chrono::Utc::now() can never be before this was written!"
            else
              match expiryCheck c now with
              | some e => .err e
              | none =>
                match maxAgeCheck c ctx now with
                | some e => .err e
                | none => .ok

/-- Spec-side (section 4.3): the combined authorized-party rule, presence
then equality. -/
def authorizedPartyCheck (c : Claims) (ctx : ValidationContext) : Option Validation :=
  match azpPresenceCheck c with
  | some e => some e
  | none => azpMatchCheck c ctx

/-- Spec-side (section 4.3): the fixed order of the validator's checks. -/
def orderedChecks (c : Claims) (ctx : ValidationContext) (now : Int) :
    List (Option Validation) :=
  [issuerCheck c ctx, nonceCheck c ctx, audienceCheck c ctx,
   authorizedPartyCheck c ctx, expiryCheck c now, maxAgeCheck c ctx now]

/-- Spec-side: the first error of an ordered list of check results. -/
def firstError : List (Option Validation) → Option Validation
  | [] => none
  | some e :: _ => some e
  | none :: rest => firstError rest

/-- Spec-side: fold a first-error result into the validator's outcome. -/
def outcomeOf : Option Validation → ValidateOutcome
  | some e => .err e
  | none => .ok

end OpenIdClient

namespace OpenIdClient

/-! Concrete sample data used by counterexamples and witnesses. -/

/-- A claims value that passes every check of `validate_token` against
`ctxD` while the clock reads between 1504758600 and 1999999999. -/
def claimsD : Claims := ⟨"i", "s", .Single "c", none, 2000000000, none, none⟩

/-- The matching validation context for `claimsD`. -/
def ctxD : ValidationContext := ⟨"c", "i", none, none⟩

/-- An oracle that accepts every signature. -/
def verifyTrue : VerifyOracle := fun _ _ _ => true

/-- An elliptic-curve key without key id or declared algorithm. -/
def ecKey : JWK := ⟨none, none, .EllipticCurve⟩

/-- A key set holding only the elliptic-curve key. -/
def jwksEC : JWKSet := ⟨[ecKey]⟩

/-- A symmetric key declaring `HS256`. -/
def keyHS : JWK := ⟨some "k1", some (.Signature .HS256), .OctetKey [115]⟩

/-- A key set holding only `keyHS`. -/
def jwksHS : JWKSet := ⟨[keyHS]⟩

/-- An RSA key with no declared algorithm. -/
def keyRS : JWK := ⟨some "k2", none, .RSA 5 3⟩

/-- A two-key set. -/
def jwks2 : JWKSet := ⟨[keyHS, keyRS]⟩

/-- An empty key set. -/
def jwks0 : JWKSet := ⟨[]⟩

/-- An encoded token declaring `RS256` with no key id and deliberately
meaningless signature bytes. -/
def tokenRS : EncodedToken := ⟨⟨.RS256, none⟩, claimsD, [0]⟩

/-- An encoded token declaring `HS256` and key id `kx` (absent from every
sample key set). -/
def tokenKidX : EncodedToken := ⟨⟨.HS256, some "kx"⟩, claimsD, [0]⟩

/-- C9: decode is idempotent on already-decoded tokens: for every token in
the Decoded state, every key set (including none) and every verification
oracle, `decode_token` returns success immediately with the token
unchanged, independent of the oracle (so no re-verification occurs). -/
theorem decode_token_idempotent_on_decoded (verify : VerifyOracle)
    (jwks : Option JWKSet) (h : Header) (p : Claims) :
    decode_token verify jwks (.Decoded h p) = .ok (.Decoded h p) := rfl

/-- C4: key selection in `decode_token` follows the arity of the key set:
zero keys fails `EmptySet`; exactly one key is selected unconditionally,
whatever the header's key id; more than one key requires a header key id
(absence fails `MissingKid`) and an unmatched id fails `MissingKey`
carrying that id. -/
theorem decode_token_key_selection_arity (verify : VerifyOracle)
    (jwks : JWKSet) (t : EncodedToken) :
    (jwks.keys = [] →
      decode_token verify (some jwks) (.Encoded t) = .err .EmptySet (.Encoded t))
    ∧ (∀ k, jwks.keys = [k] → selectKey jwks t.header = .ok k)
    ∧ (1 < jwks.keys.length → t.header.keyId = none →
      decode_token verify (some jwks) (.Encoded t) = .err .MissingKid (.Encoded t))
    ∧ (∀ kid, 1 < jwks.keys.length → t.header.keyId = some kid → jwks.find kid = none →
      decode_token verify (some jwks) (.Encoded t) =
        .err (.MissingKey kid) (.Encoded t)) := by
  refine ⟨?_, ?_, ?_, ?_⟩
  · intro h
    simp [decode_token, selectKey, h]
  · intro k h
    simp [selectKey, h]
  · intro hlen hkid
    simp [decode_token, selectKey, hlen, hkid]
  · intro kid hlen hkid hfind
    simp [decode_token, selectKey, hlen, hkid, hfind]

/-- C4 witness: the four arity cases at concrete inputs. -/
theorem decode_token_key_selection_arity_witness :
    decode_token verifyTrue (some jwks0) (.Encoded tokenRS) = .err .EmptySet (.Encoded tokenRS)
    ∧ selectKey jwksHS tokenRS.header = .ok keyHS
    ∧ decode_token verifyTrue (some jwks2) (.Encoded tokenRS) =
        .err .MissingKid (.Encoded tokenRS)
    ∧ decode_token verifyTrue (some jwks2) (.Encoded tokenKidX) =
        .err (.MissingKey "kx") (.Encoded tokenKidX) :=
  ⟨(decode_token_key_selection_arity verifyTrue jwks0 tokenRS).1 rfl,
   (decode_token_key_selection_arity verifyTrue jwksHS tokenRS).2.1 keyHS rfl,
   (decode_token_key_selection_arity verifyTrue jwks2 tokenRS).2.2.1 (by decide) rfl,
   (decode_token_key_selection_arity verifyTrue jwks2 tokenKidX).2.2.2 "kx" (by decide)
     rfl (by decide)⟩

/-- C2 counterexample: with a key set holding one elliptic-curve key, the
decode of an encoded token reaches `unimplemented!` and panics — it does
not fail with a typed "unsupported key type" error outcome as claimed. -/
theorem decode_token_ec_panics_cex :
    decode_token verifyTrue (some jwksEC) (.Encoded tokenRS) =
      .panicked "No support for EC keys yet" := rfl

/-- C2 amended: for every token whose selected key is an elliptic-curve key
(and whose declared-algorithm cross-check passes), `decode_token` panics
with the `unimplemented!` message "No support for EC keys yet" instead of
returning a typed error; this is a second panic site besides the clock
sanity check in `validate_token`. -/
theorem decode_token_ec_key_panics (verify : VerifyOracle) (jwks : JWKSet)
    (t : EncodedToken) (key : JWK)
    (hsel : selectKey jwks t.header = .ok key)
    (hchk : algCrossCheck key t.header = none)
    (hec : key.params = .EllipticCurve) :
    decode_token verify (some jwks) (.Encoded t) =
      .panicked "No support for EC keys yet" := by
  simp [decode_token, hsel, hchk, dispatchKey, hec]

/-- C2 amended witness: the elliptic-curve panic at a concrete input. -/
theorem decode_token_ec_key_panics_witness :
    decode_token verifyTrue (some jwksEC) (.Encoded tokenKidX) =
      .panicked "No support for EC keys yet" :=
  decode_token_ec_key_panics verifyTrue jwksEC tokenKidX ecKey rfl rfl rfl

/-- C3: when the selected key self-declares an algorithm that is not a
signature algorithm, or is a signature algorithm different from the
header's, `decode_token` fails with one fixed `WrongKeyType{expected,
actual}` error, the same for every verification oracle — so the check
precedes signature verification and the result is unchanged even when the
signature bytes are invalid. -/
theorem decode_token_wrong_key_type_precedes_verification
    (jwks : JWKSet) (t : EncodedToken) (key : JWK) (a : Algorithm)
    (hsel : selectKey jwks t.header = .ok key)
    (hdecl : key.algorithm = some a)
    (hbad : ∀ s, a = .Signature s → s ≠ t.header.algorithm) :
    ∃ x y, ∀ verify : VerifyOracle,
      decode_token verify (some jwks) (.Encoded t) =
        .err (.WrongKeyType x y) (.Encoded t) := by
  cases a with
  | Signature s =>
    have hne : t.header.algorithm ≠ s := Ne.symm (hbad s rfl)
    exact ⟨s.debugFmt, t.header.algorithm.debugFmt, fun verify => by
      simp [decode_token, hsel, algCrossCheck, hdecl, hne]⟩
  | KeyManagement n =>
    exact ⟨SignatureAlgorithm.default.debugFmt, (Algorithm.KeyManagement n).debugFmt,
      fun verify => by simp [decode_token, hsel, algCrossCheck, hdecl]⟩
  | ContentEncryption n =>
    exact ⟨SignatureAlgorithm.default.debugFmt, (Algorithm.ContentEncryption n).debugFmt,
      fun verify => by simp [decode_token, hsel, algCrossCheck, hdecl]⟩

/-- C3 witness: a key declaring `HS256` against a header declaring `RS256`
fails `WrongKeyType` uniformly in the oracle. -/
theorem decode_token_wrong_key_type_witness :
    ∃ x y, ∀ verify : VerifyOracle,
      decode_token verify (some jwksHS) (.Encoded tokenRS) =
        .err (.WrongKeyType x y) (.Encoded tokenRS) :=
  decode_token_wrong_key_type_precedes_verification jwksHS tokenRS keyHS
    (.Signature .HS256) rfl rfl
    (by intro s hs; cases hs; decide)

end OpenIdClient

namespace OpenIdClient

/-- Claims carrying an `auth_time` of 1500000000. -/
def claimsAT : Claims := ⟨"i", "s", .Single "c", none, 2000000000, none, some 1500000000⟩

/-- Claims carrying a future `auth_time` of 1700000000. -/
def claimsFut : Claims := ⟨"i", "s", .Single "c", none, 2000000000, none, some 1700000000⟩

/-- Claims carrying nonce `n2`. -/
def claimsN2 : Claims := ⟨"i", "s", .Single "c", none, 2000000000, some "n2", none⟩

/-- Claims whose audience does not contain the client id `c`. -/
def claimsBadAud : Claims := ⟨"i", "s", .Single "x", none, 2000000000, none, none⟩

/-- Claims with a multi-valued audience and no authorized party. -/
def claimsMulti : Claims := ⟨"i", "s", .Multiple ["c", "d"], none, 2000000000, none, none⟩

/-- Claims with a multi-valued audience and authorized party `d`. -/
def claimsAzpD : Claims := ⟨"i", "s", .Multiple ["c", "d"], some "d", 2000000000, none, none⟩

/-- Context expecting nonce `n1`. -/
def ctxN : ValidationContext := ⟨"c", "i", some "n1", none⟩

/-- Context imposing a max age of 50000000 seconds. -/
def ctxMA : ValidationContext := ⟨"c", "i", none, some 50000000⟩

/-- C1 counterexample: with both claimed inputs fixed, two runs of
`validate_token` differ when the ambient clock (read internally via
`Utc::now()`, here the explicit clock argument of the embedding) differs:
the result does not depend only on the claims and the context. -/
theorem validate_token_clock_dependence_cex :
    validate_token claimsD ctxD 1600000000 ≠ validate_token claimsD ctxD 2000000000 := by
  decide

/-- C1 amended: `validate_token` is referentially transparent given
identical inputs including the clock value: identical claims, identical
context and an identical current-time reading yield identical results. -/
theorem validate_token_deterministic_given_clock (c₁ c₂ : Claims)
    (ctx₁ ctx₂ : ValidationContext) (now₁ now₂ : Int)
    (hc : c₁ = c₂) (hctx : ctx₁ = ctx₂) (hnow : now₁ = now₂) :
    validate_token c₁ ctx₁ now₁ = validate_token c₂ ctx₂ now₂ := by
  rw [hc, hctx, hnow]

/-- C1 amended witness: determinism at a concrete input. -/
theorem validate_token_deterministic_given_clock_witness :
    validate_token claimsD ctxD 1600000000 = validate_token claimsD ctxD 1600000000 :=
  validate_token_deterministic_given_clock claimsD claimsD ctxD ctxD
    1600000000 1600000000 rfl rfl rfl

/-- C5: under a sane clock (the only case in which the function returns at
all), `validate_token` equals the first error of its checks run in the
fixed order issuer, nonce, audience, authorized-party, expiry, max-age —
fail-fast, first-violated-rule-wins, no aggregation. -/
theorem validate_token_fixed_order_first_error (c : Claims) (ctx : ValidationContext)
    (now : Int) (hclock : 1504758600 ≤ now) :
    validate_token c ctx now = outcomeOf (firstError (orderedChecks c ctx now)) := by
  have h : ¬ now < 1504758600 := not_lt.mpr hclock
  unfold validate_token orderedChecks authorizedPartyCheck
  cases issuerCheck c ctx <;>
    cases nonceCheck c ctx <;>
      cases audienceCheck c ctx <;>
        cases azpPresenceCheck c <;>
          cases azpMatchCheck c ctx <;>
            cases expiryCheck c now <;>
              cases maxAgeCheck c ctx now <;>
                simp [firstError, outcomeOf, h]

/-- C5 witness: the first-error characterisation at a concrete input. -/
theorem validate_token_fixed_order_first_error_witness :
    validate_token claimsD ctxD 1600000000 =
      outcomeOf (firstError (orderedChecks claimsD ctxD 1600000000)) :=
  validate_token_fixed_order_first_error claimsD ctxD 1600000000 (by decide)

/-- C6: both time checks are boundary-inclusive.  For claims passing every
earlier check and a sane clock: expiry fails `Expired::Expires` when
`exp ≤ now` (equality included); with a supplied max age and a present
auth time, the check fails `Expired::MaxAge(now - auth_time)` when the age
reaches the bound (equality included); a supplied max age without an auth
time fails `Missing::AuthTime`. -/
theorem validate_token_time_boundaries (c : Claims) (ctx : ValidationContext) (now : Int)
    (h1 : issuerCheck c ctx = none) (h2 : nonceCheck c ctx = none)
    (h3 : audienceCheck c ctx = none) (h4 : azpPresenceCheck c = none)
    (h5 : azpMatchCheck c ctx = none) (hclock : 1504758600 ≤ now) :
    (c.exp ≤ now →
      validate_token c ctx now = .err (.Expired (.Expires c.exp)))
    ∧ (∀ m t, now < c.exp → ctx.max_age = some m → c.auth_time = some t →
        m ≤ now - t →
        validate_token c ctx now = .err (.Expired (.MaxAge (now - t))))
    ∧ (∀ m, now < c.exp → ctx.max_age = some m → c.auth_time = none →
        validate_token c ctx now = .err (.Missing .AuthTime)) := by
  have h : ¬ now < 1504758600 := not_lt.mpr hclock
  refine ⟨?_, ?_, ?_⟩
  · intro hexp
    simp [validate_token, h1, h2, h3, h4, h5, h, expiryCheck, hexp]
  · intro m t hexp hmax hat hage
    simp [validate_token, h1, h2, h3, h4, h5, h, expiryCheck, not_le.mpr hexp,
      maxAgeCheck, hmax, hat, hage]
  · intro m hexp hmax hat
    simp [validate_token, h1, h2, h3, h4, h5, h, expiryCheck, not_le.mpr hexp,
      maxAgeCheck, hmax, hat]

/-- C6 witness: the three time-check outcomes at concrete inputs, with an
exact-boundary expiry (`now = exp`). -/
theorem validate_token_time_boundaries_witness :
    validate_token claimsD ctxD 2000000000 = .err (.Expired (.Expires 2000000000))
    ∧ validate_token claimsAT ctxMA 1600000000 = .err (.Expired (.MaxAge 100000000))
    ∧ validate_token claimsD ctxMA 1600000000 = .err (.Missing .AuthTime) :=
  ⟨(validate_token_time_boundaries claimsD ctxD 2000000000
      (by decide) (by decide) (by decide) (by decide) (by decide) (by decide)).1 (by decide),
   (validate_token_time_boundaries claimsAT ctxMA 1600000000
      (by decide) (by decide) (by decide) (by decide) (by decide) (by decide)).2.1
      50000000 1500000000 (by decide) rfl rfl (by decide),
   (validate_token_time_boundaries claimsD ctxMA 1600000000
      (by decide) (by decide) (by decide) (by decide) (by decide) (by decide)).2.2
      50000000 (by decide) rfl rfl⟩

/-- C7: nonce validation is presence-symmetric: expected-and-claimed both
present but unequal fails `Mismatch::Nonce`; expected present with claim
absent fails `Missing::Nonce`; expected absent with claim present fails
`Missing::Nonce`; both absent, or both present and equal, pass the nonce
check. -/
theorem validate_token_nonce_cases (c : Claims) (ctx : ValidationContext) (now : Int)
    (h1 : issuerCheck c ctx = none) :
    (∀ e a, ctx.nonce = some e → c.nonce = some a → e ≠ a →
      validate_token c ctx now = .err (.Mismatch (.Nonce e a)))
    ∧ (∀ e, ctx.nonce = some e → c.nonce = none →
      validate_token c ctx now = .err (.Missing .Nonce))
    ∧ (∀ a, ctx.nonce = none → c.nonce = some a →
      validate_token c ctx now = .err (.Missing .Nonce))
    ∧ ((ctx.nonce = none ∧ c.nonce = none) ∨
        (∃ x, ctx.nonce = some x ∧ c.nonce = some x) →
      nonceCheck c ctx = none) := by
  refine ⟨?_, ?_, ?_, ?_⟩
  · intro e a he ha hne
    simp [validate_token, h1, nonceCheck, he, ha, hne]
  · intro e he hn
    simp [validate_token, h1, nonceCheck, he, hn]
  · intro a hn ha
    simp [validate_token, h1, nonceCheck, hn, ha]
  · rintro (⟨hn, ha⟩ | ⟨x, hn, ha⟩) <;> simp [nonceCheck, hn, ha]

/-- C7 witness: all four presence cases at concrete inputs. -/
theorem validate_token_nonce_cases_witness :
    validate_token claimsN2 ctxN 1600000000 = .err (.Mismatch (.Nonce "n1" "n2"))
    ∧ validate_token claimsD ctxN 1600000000 = .err (.Missing .Nonce)
    ∧ validate_token claimsN2 ctxD 1600000000 = .err (.Missing .Nonce)
    ∧ nonceCheck claimsD ctxD = none :=
  ⟨(validate_token_nonce_cases claimsN2 ctxN 1600000000 (by decide)).1
      "n1" "n2" rfl rfl (by decide),
   (validate_token_nonce_cases claimsD ctxN 1600000000 (by decide)).2.1 "n1" rfl rfl,
   (validate_token_nonce_cases claimsN2 ctxD 1600000000 (by decide)).2.2.1 "n2" rfl rfl,
   (validate_token_nonce_cases claimsD ctxD 1600000000 (by decide)).2.2.2
      (Or.inl ⟨rfl, rfl⟩)⟩

/-- C8: the client id must be a member of the audience, else
`Missing::Audience`; a multi-valued audience without an authorized party
fails `Missing::AuthorizedParty`; a present authorized party different
from the client id fails `Mismatch::AuthorizedParty`, whatever the
audience arity. -/
theorem validate_token_audience_azp (c : Claims) (ctx : ValidationContext) (now : Int)
    (h1 : issuerCheck c ctx = none) (h2 : nonceCheck c ctx = none) :
    (c.aud.contains ctx.client_id = false →
      validate_token c ctx now = .err (.Missing .Audience))
    ∧ (∀ l, c.aud = .Multiple l → c.aud.contains ctx.client_id = true → c.azp = none →
      validate_token c ctx now = .err (.Missing .AuthorizedParty))
    ∧ (∀ p, c.aud.contains ctx.client_id = true → c.azp = some p → p ≠ ctx.client_id →
      validate_token c ctx now = .err (.Mismatch (.AuthorizedParty ctx.client_id p))) := by
  refine ⟨?_, ?_, ?_⟩
  · intro hcont
    simp [validate_token, h1, h2, audienceCheck, hcont]
  · intro l hml hcont hazp
    rw [hml] at hcont
    simp [validate_token, h1, h2, audienceCheck, hcont, azpPresenceCheck, hml, hazp]
  · intro p hcont hazp hne
    cases haud : c.aud <;> rw [haud] at hcont <;>
      simp [validate_token, h1, h2, audienceCheck, hcont, azpPresenceCheck, haud,
        azpMatchCheck, hazp, hne]

/-- C8 witness: the three audience/authorized-party failures at concrete
inputs. -/
theorem validate_token_audience_azp_witness :
    validate_token claimsBadAud ctxD 1600000000 = .err (.Missing .Audience)
    ∧ validate_token claimsMulti ctxD 1600000000 = .err (.Missing .AuthorizedParty)
    ∧ validate_token claimsAzpD ctxD 1600000000 =
        .err (.Mismatch (.AuthorizedParty "c" "d")) :=
  ⟨(validate_token_audience_azp claimsBadAud ctxD 1600000000 (by decide) (by decide)).1
      (by decide),
   (validate_token_audience_azp claimsMulti ctxD 1600000000 (by decide) (by decide)).2.1
      ["c", "d"] rfl (by decide) rfl,
   (validate_token_audience_azp claimsAzpD ctxD 1600000000 (by decide) (by decide)).2.2
      "d" (by decide) rfl (by decide)⟩

/-- C10: a future `auth_time` defeats the max-age check: when every earlier
check passes, the clock is sane, the token is unexpired, a positive max
age is supplied and the claimed auth time lies strictly in the future,
`validate_token` accepts — the computed age `now - auth_time` is negative
and never reaches the bound. -/
theorem validate_token_future_auth_time_passes (c : Claims) (ctx : ValidationContext)
    (now m t : Int)
    (h1 : issuerCheck c ctx = none) (h2 : nonceCheck c ctx = none)
    (h3 : audienceCheck c ctx = none) (h4 : azpPresenceCheck c = none)
    (h5 : azpMatchCheck c ctx = none) (hclock : 1504758600 ≤ now)
    (hexp : now < c.exp) (hmax : ctx.max_age = some m) (hm : 0 < m)
    (hat : c.auth_time = some t) (hfut : now < t) :
    validate_token c ctx now = .ok := by
  have h : ¬ now < 1504758600 := not_lt.mpr hclock
  have hage : ¬ now - t ≥ m := by omega
  simp [validate_token, h1, h2, h3, h4, h5, h, expiryCheck, not_le.mpr hexp,
    maxAgeCheck, hmax, hat, hage]

/-- C10 witness: a token claiming authentication in the future is accepted
at a concrete input. -/
theorem validate_token_future_auth_time_passes_witness :
    validate_token claimsFut ctxMA 1600000000 = .ok :=
  validate_token_future_auth_time_passes claimsFut ctxMA 1600000000 50000000 1700000000
    (by decide) (by decide) (by decide) (by decide) (by decide) (by decide)
    (by decide) rfl (by decide) rfl (by decide)

end OpenIdClient
